import Mathlib

/-!
Verification of the interactive command shell of the OS-simulator dashboard
(`src/frontend/src/components/panels/TerminalPanel.tsx`).

The shell's pure logic is shallowly embedded below: the scrollback and
history buffers with their persistence caps, the line tokenizer, the
per-verb handlers the claims refer to (`echo` with its redirection
grammar, `clear`, `mkfs`/`format`, `kill`, `shmread`, `hexdump`/`block`),
the key handler for submission and history recall, and the hexdump
formatter.  Remote-service responses are passed in as explicit values;
the calls a handler issues are returned as an explicit list so that
"no remote call is made" is a provable statement.
-/

/-- The 71-character horizontal rule of the welcome banner's frame rows. -/
def bannerRule : String := String.mk (List.replicate 71 '═')

/-- The fixed welcome banner (`WELCOME_MESSAGE` in the source), shown on
first load and restored by `clear`. -/
def WELCOME_MESSAGE : List String := [
  "╔" ++ bannerRule ++ "╗",
  "║              OS FileSystem 模拟器终端 v2.0 (Linux风格)                ║",
  "╠" ++ bannerRule ++ "╣",
  "║  文件操作 (标准Linux命令):                                            ║",
  "║    ls [-l]          列出目录      cat <file>      查看文件内容       ║",
  "║    touch <file>     创建空文件    echo <t> > <f>  写入/覆盖文件       ║",
  "║    echo <t> >> <f>  追加到文件    rm [-r] <file>  删除文件/目录       ║",
  "║    mkdir <dir>      创建目录      cd <dir>        切换目录            ║",
  "║    pwd              当前路径      stat <file>     文件详细信息        ║",
  "║    cp <src> <dst>   复制文件      mv <src> <dst>  移动/重命名         ║",
  "║    chmod <mode> <f> 修改权限                                          ║",
  "╠" ++ bannerRule ++ "╣",
  "║  磁盘与系统:                                                          ║",
  "║    df               磁盘使用情况  free            内存/缓冲区状态     ║",
  "║    sync             同步缓冲区    mkfs            格式化磁盘          ║",
  "║    hexdump <blk>    查看块内容    dumpe2fs        文件系统信息        ║",
  "╠" ++ bannerRule ++ "╣",
  "║  进程管理:                                                            ║",
  "║    ps               进程列表      top             调度器状态          ║",
  "║    kill <pid>       终止进程      nice <cmd>      创建任务            ║",
  "║    jobs             后台任务      bg/fg           后台/前台           ║",
  "╠" ++ bannerRule ++ "╣",
  "║  IPC共享内存:                                                         ║",
  "║    ipcs             IPC资源列表   ipcrm <key>     删除IPC资源         ║",
  "║    shmget <size>    创建共享内存  shmread <key>   读取共享内存        ║",
  "║    shmwrite <k> <d> 写入共享内存                                      ║",
  "╠" ++ bannerRule ++ "╣",
  "║  其他: help - 完整帮助  clear - 清屏  history - 命令历史              ║",
  "╚" ++ bannerRule ++ "╝"]

/-- Live per-panel state of the shell: the React state variables
`output`, `input`, `history`, `historyIndex` of `TerminalPanel`, plus the
two `localStorage` keys the component owns (`terminal_output` and
`terminal_history`; `none` means the key is absent). -/
structure ShellState where
  output : List String
  input : String
  history : List String
  historyIndex : Int
  storedOutput : Option (List String)
  storedHistory : Option (List String)
deriving DecidableEq, Repr

/-- Source `addOutput` (lines 141-143): appends the given lines to the
live scrollback.  Note that it performs no truncation. -/
def addOutput (prev : List String) (lines : List String) : List String :=
  prev ++ lines

/-- Source `saveOutputToStorage` (lines 108-116): the persisted scrollback
snapshot is `output.slice(-500)`, i.e. the most recent at most 500 lines. -/
def saveOutputToStorage (output : List String) : List String :=
  output.drop (output.length - 500)

/-- Source `saveHistoryToStorage` (lines 82-90): the persisted history
snapshot is `history.slice(-100)`, i.e. the most recent at most 100 entries. -/
def saveHistoryToStorage (history : List String) : List String :=
  history.drop (history.length - 100)

/-- Source `loadOutputFromStorage` (lines 93-105): restore at most the
last 500 stored lines; fall back to the welcome banner when the key is
absent (or its JSON is corrupt, modelled as `none`). -/
def loadOutputFromStorage (stored : Option (List String)) : List String :=
  match stored with
  | some parsed => parsed.drop (parsed.length - 500)
  | none => WELCOME_MESSAGE

/-- Remove leading and trailing whitespace characters from a character
list (JS `\s` modelled by `Char.isWhitespace`). -/
def trimList (cs : List Char) : List Char :=
  ((cs.dropWhile Char.isWhitespace).reverse.dropWhile Char.isWhitespace).reverse

/-- JS `String.prototype.trim()`, implemented character-wise. -/
def jsTrim (s : String) : String :=
  String.mk (trimList s.data)

/-- Split a character list at every separator character, keeping empty
pieces (the behavior of JS `split` with a one-character separator class);
the second argument accumulates the current piece in reverse. -/
def splitChars (p : Char → Bool) : List Char → List Char → List (List Char)
  | [], acc => [acc.reverse]
  | c :: rest, acc =>
    if p c then acc.reverse :: splitChars p rest []
    else splitChars p rest (c :: acc)

/-- JS `result.split('\n')` (source line 837), character-wise. -/
def splitNewlines (s : String) : List String :=
  (splitChars (fun c => c = '\n') s.data []).map String.mk

/-- JS `String.prototype.toLowerCase()` on the ASCII verbs the registry
contains, character-wise. -/
def jsToLower (s : String) : String :=
  String.mk (s.data.map Char.toLower)

/-- Source tokenization (line 150): `cmdLine.trim().split(/\s+/)`.
Splitting a trimmed string on runs of whitespace equals splitting on
single whitespace characters and discarding empty pieces. -/
def tokenize (cmdLine : String) : List String :=
  ((splitChars Char.isWhitespace (jsTrim cmdLine).data []).map String.mk).filter
    (fun t => t ≠ "")

/-- JavaScript `x || dflt` on an optional string field: `undefined` and
the empty string are falsy and select the default. -/
def jsOr (o : Option String) (dflt : String) : String :=
  match o with
  | some s => if s = "" then dflt else s
  | none => dflt

/-- JavaScript `parseInt(s)` restricted to the decimal forms the shell
passes it: leading whitespace skipped, optional sign, then leading
decimal digits; `none` models `NaN` (no digits). -/
def jsParseInt (s : String) : Option Int :=
  let cs := trimList s.data
  let signed : Int × List Char :=
    match cs with
    | '-' :: r => (-1, r)
    | '+' :: r => (1, r)
    | r => (1, r)
  let digits := signed.2.takeWhile Char.isDigit
  if digits = [] then none
  else some (signed.1 * ((digits.foldl (fun acc c => acc * 10 + (c.toNat - 48)) 0 : Nat) : Int))

/-- JavaScript string interpolation of a number that may be `NaN`. -/
def pidStr (pid : Option Int) : String :=
  match pid with
  | some n => toString n
  | none => "NaN"

/-- One remote call issued by a handler through the Remote Service
Facade (the wrappers of `services/api.ts` or a direct `fetch`). -/
inductive FacadeCall where
  | readFile (name : String)
  | createFile (name content : String)
  | updateFile (name content : String)
  | formatDisk
  | terminateProcess (pid : Option Int)
  | shmRead (key offset length : Option Int)
  | readBlock (blockId : Option Int)
deriving DecidableEq, Repr

/-- Modelled from the spec: the remote file store behind the Remote
Service Facade.  The backend implementing it is not part of the supplied
source (spec §1 treats it as an external collaborator), so files are
modelled as an association list from name to content, per the operation
list of spec §6. -/
abbrev FileSys : Type := List (String × String)

/-- Modelled from the spec: `read file(name) → content` (§6); reading an
absent file reports failure (`none`), which is what the `echo` handler
branches on. -/
def fsRead (fs : FileSys) (name : String) : Option String :=
  (fs.find? (fun p => p.1 = name)).map (fun p => p.2)

/-- Replace the content of an existing file, keeping every other entry. -/
def replaceContent (fs : FileSys) (name content : String) : FileSys :=
  fs.map (fun p => if p.1 = name then (name, content) else p)

/-- Modelled from the spec: `create file(name, content)` (§6); `none`
models a reported failure. -/
def fsCreate (fs : FileSys) (name content : String) : Option FileSys :=
  if (fsRead fs name).isSome then none else some ((name, content) :: fs)

/-- Modelled from the spec: `update/overwrite file(name, content)` (§6);
`none` models a reported failure. -/
def fsUpdate (fs : FileSys) (name content : String) : Option FileSys :=
  if (fsRead fs name).isSome then some (replaceContent fs name content) else none

/-- Recognizer for the two redirect operator tokens. -/
def isRedirect (a : String) : Bool :=
  a == ">" || a == ">>"

/-- Source `args.findIndex(a => a === '>' || a === '>>')` (line 347):
index of the first redirect token, if any. -/
def findRedirectIdx : List String → Option Nat
  | [] => none
  | a :: rest => if isRedirect a then some 0 else (findRedirectIdx rest).map (· + 1)

/-- The shell-grammar error printed for a redirect with no target
(source line 357). -/
def echoSyntaxErr : String :=
  "bash: syntax error near unexpected token \x60newline\x27"

/-- Source `case 'echo'` (lines 345-379): plain echo joins the argument
tokens; a redirect writes the joined tokens before the operator to the
named file (append mode re-reads the old content first).  The modelled
facade reports no error text of its own, so the JavaScript fallback
string is used on a failed write. -/
def echoCmd (args : List String) (fs : FileSys) : String × FileSys × List FacadeCall :=
  match findRedirectIdx args with
  | none => (String.intercalate " " args, fs, [])
  | some i =>
    let content := String.intercalate " " (args.take i)
    let filename := args.getD (i + 1) ""
    let isAppend := args.getD i "" = ">>"
    if filename = "" then
      (echoSyntaxErr, fs, [])
    else if isAppend then
      let newContent :=
        match fsRead fs filename with
        | some c => c ++ "\n" ++ content
        | none => content
      match fsUpdate fs filename newContent with
      | some fs2 => ("", fs2, [FacadeCall.readFile filename, FacadeCall.updateFile filename newContent])
      | none => ("错误", fs, [FacadeCall.readFile filename, FacadeCall.updateFile filename newContent])
    else
      match fsRead fs filename with
      | some _ =>
        match fsUpdate fs filename content with
        | some fs2 => ("", fs2, [FacadeCall.readFile filename, FacadeCall.updateFile filename content])
        | none => ("错误", fs, [FacadeCall.readFile filename, FacadeCall.updateFile filename content])
      | none =>
        match fsCreate fs filename content with
        | some fs2 => ("", fs2, [FacadeCall.readFile filename, FacadeCall.createFile filename content])
        | none => ("错误", fs, [FacadeCall.readFile filename, FacadeCall.createFile filename content])

/-- Source `case 'mkfs'/'format'` warning text (line 458). -/
def mkfsMsg : String :=
  "警告: mkfs 将格式化磁盘，所有数据将丢失！\n请使用 mkfs --force 确认操作"

/-- Shape of a plain `{success, error?}` facade response. -/
structure SvcResp where
  success : Bool
  error : Option String
deriving DecidableEq, Repr

/-- Shape of the response to a shared-memory read. -/
structure ShmReadResp where
  success : Bool
  text : Option String
  error : Option String
deriving DecidableEq, Repr

/-- Shape of the response to a disk-block read. -/
structure BlockResp where
  success : Bool
  data : String
  text : String
  error : Option String
deriving DecidableEq, Repr

/-- Source `case 'mkfs'/'format'` (lines 456-464): without a leading
`--force`/`-f` only the fixed warning is produced; with it, the
destructive format operation is invoked. -/
def mkfsCmd (args : List String) (resp : SvcResp) : String × List FacadeCall :=
  if args.getD 0 "" = "--force" ∨ args.getD 0 "" = "-f" then
    ((if resp.success then "mke2fs: filesystem created successfully"
      else jsOr resp.error "格式化失败"), [FacadeCall.formatDisk])
  else (mkfsMsg, [])

/-- Source `case 'kill'` (lines 561-571): a reported failure is rendered
inside a `bash: kill: (<pid>) - ` wrapper. -/
def killCmd (args : List String) (resp : SvcResp) : String × List FacadeCall :=
  if args.getD 0 "" = "" then ("用法: kill <pid>", [])
  else
    let pid := jsParseInt (args.getD 0 "")
    ((if resp.success then ""
      else "bash: kill: (" ++ pidStr pid ++ ") - " ++ jsOr resp.error "进程不存在"),
     [FacadeCall.terminateProcess pid])

/-- Source `case 'shmread'/'shm_read'` (lines 716-737): a reported
failure is rendered inside a `shmread: ` wrapper. -/
def shmreadCmd (args : List String) (resp : ShmReadResp) : String × List FacadeCall :=
  if args.getD 0 "" = "" then ("用法: shmread <key> [offset] [length]", [])
  else
    let key := jsParseInt (args.getD 0 "")
    let offset := jsParseInt (jsOr (args.get? 1) "0")
    let length := jsParseInt (jsOr (args.get? 2) "64")
    ((if resp.success then jsOr resp.text "(empty)"
      else "shmread: " ++ jsOr resp.error "读取失败"),
     [FacadeCall.shmRead key offset length])

/-- Lowercase hexadecimal rendering of a number, JS `n.toString(16)`. -/
def natToHex (n : Nat) : String :=
  String.mk (Nat.toDigits 16 n)

/-- JS `String.prototype.padStart(n, c)`. -/
def jsPadStart (s : String) (n : Nat) (c : Char) : String :=
  String.mk (List.replicate (n - s.length) c) ++ s

/-- JS `String.prototype.padEnd(n, c)`. -/
def jsPadEnd (s : String) (n : Nat) (c : Char) : String :=
  s ++ String.mk (List.replicate (n - s.length) c)

/-- JS `hex.match(/.{1,2}/g)`: greedy split into digit pairs (a trailing
odd character forms a chunk of one). -/
def hexPairs : List Char → List String
  | [] => []
  | [a] => [String.mk [a]]
  | a :: b :: rest => String.mk [a, b] :: hexPairs rest

/-- JS `replace(/[^\x20-\x7E]/g, '.')` applied per character. -/
def asciiClean (c : Char) : Char :=
  if 0x20 ≤ c.toNat ∧ c.toNat ≤ 0x7E then c else '.'

/-- One hexdump output line (source line 439): 8-digit byte offset, the
space-separated hex pairs padded to column width 48, and the cleaned
ASCII rendering between vertical bars. -/
def hexdumpLine (byteOff : Nat) (hexChunk : List Char) (textChunk : List Char) : String :=
  jsPadStart (natToHex byteOff) 8 '0' ++ "  " ++
    jsPadEnd (String.intercalate " " (hexPairs hexChunk)) 48 ' ' ++ "  |" ++
    String.mk (textChunk.map asciiClean) ++ "|"

/-- Loop of the hexdump formatter (source lines 435-440): 32 hex
characters (16 bytes) per line; the running byte offset advances by 16.
The first argument is fuel bounding the number of iterations by the
length of the remaining hex string (each iteration consumes at least one
character), making the recursion structural. -/
def hexdumpGo : Nat → Nat → List Char → List Char → List String
  | 0, _, _, _ => []
  | _, _, [], _ => []
  | fuel + 1, byteOff, hex, text =>
    hexdumpLine byteOff (hex.take 32) (text.take 16) ::
      hexdumpGo fuel (byteOff + 16) (hex.drop 32) (text.drop 16)

/-- Source hexdump formatter (lines 432-441) over the block's hex-pair
string `data.data` and its decoded text `data.text`. -/
def hexdumpLines (hexStr textStr : String) : List String :=
  hexdumpGo hexStr.length 0 hexStr.toList textStr.toList

/-- Source `case 'hexdump'/'block'` (lines 423-447). -/
def hexdumpCmd (args : List String) (resp : BlockResp) : String × List FacadeCall :=
  if args.getD 0 "" = "" then
    ("用法: hexdump <block_id>\n示例: hexdump 35 (查看块35的内容)", [])
  else
    let blockId := jsParseInt (args.getD 0 "")
    ((if resp.success then String.intercalate "\n" (hexdumpLines resp.data resp.text)
      else jsOr resp.error "读取失败"),
     [FacadeCall.readBlock blockId])

/-- Environment of a command execution: the modelled remote file store
plus the response each other modelled operation would return. -/
structure ShellEnv where
  fs : FileSys
  killResp : SvcResp
  shmReadResp : ShmReadResp
  blockResp : BlockResp
  formatResp : SvcResp
deriving DecidableEq

/-- The unconditional prompt/echo line (source line 148). -/
def promptLine (cmdLine : String) : String :=
  "root@osfs:~$ " ++ cmdLine

/-- Source lines 836-838: a non-empty result string is appended to the
scrollback split on newlines; an empty result appends nothing. -/
def appendResult (st : ShellState) (result : String) : ShellState :=
  if result = "" then st
  else { st with output := addOutput st.output (splitNewlines result) }

/-- The not-found output for an unregistered verb (source line 830). -/
def notFoundMsg (cmd : String) : String :=
  "命令未找到: " ++ cmd ++ "\n输入 \x27help\x27 查看可用命令"

/-- Source `executeCommand` (lines 145-839): blank-input guard, echo
line, tokenization, dispatch, result append.  Only the verbs the
theorems below exercise are embedded (`clear`, `echo`, `mkfs`/`format`,
`kill`, `shmread`/`shm_read`, `hexdump`/`block`); the source's remaining
verbs (`ls`, `cat`, `ps`, `help`, ...) dispatch to handlers that are not
modelled here, and no theorem below applies `executeCommand` to them, so
the default branch is reached in the theorems only as the source's own
unknown-verb branch would be. -/
def executeCommand (cmdLine : String) (st : ShellState) (env : ShellEnv) :
    ShellState × ShellEnv × List FacadeCall :=
  if jsTrim cmdLine = "" then (st, env, [])
  else
    let st1 := { st with output := addOutput st.output [promptLine cmdLine] }
    let parts := tokenize cmdLine
    let cmd := jsToLower (parts.getD 0 "")
    let args := parts.drop 1
    match cmd with
    | "clear" => ({ st1 with output := WELCOME_MESSAGE, storedOutput := none }, env, [])
    | "echo" =>
      match echoCmd args env.fs with
      | (result, fs2, calls) => (appendResult st1 result, { env with fs := fs2 }, calls)
    | "mkfs" | "format" =>
      match mkfsCmd args env.formatResp with
      | (result, calls) => (appendResult st1 result, env, calls)
    | "kill" =>
      match killCmd args env.killResp with
      | (result, calls) => (appendResult st1 result, env, calls)
    | "shmread" | "shm_read" =>
      match shmreadCmd args env.shmReadResp with
      | (result, calls) => (appendResult st1 result, env, calls)
    | "hexdump" | "block" =>
      match hexdumpCmd args env.blockResp with
      | (result, calls) => (appendResult st1 result, env, calls)
    | other => (appendResult st1 (notFoundMsg other), env, [])

/-- Source `handleKeyDown`, Enter branch (lines 842-846): run the
command, then unconditionally append the raw input to history, reset the
recall cursor and clear the input line. -/
def enterKey (st : ShellState) (env : ShellEnv) : ShellState × ShellEnv × List FacadeCall :=
  match executeCommand st.input st env with
  | (st1, env1, calls) =>
    ({ st1 with history := st1.history ++ [st.input], historyIndex := -1, input := "" },
     env1, calls)

/-- Source `handleKeyDown`, ArrowUp branch (lines 847-853). -/
def arrowUp (st : ShellState) : ShellState :=
  if 0 < st.history.length then
    let newIndex : Int :=
      if st.historyIndex = -1 then (st.history.length : Int) - 1
      else max 0 (st.historyIndex - 1)
    { st with historyIndex := newIndex, input := st.history.getD newIndex.toNat "" }
  else st

/-- Source `handleKeyDown`, ArrowDown branch (lines 854-866). -/
def arrowDown (st : ShellState) : ShellState :=
  if 0 ≤ st.historyIndex then
    let newIndex := st.historyIndex + 1
    if (st.history.length : Int) ≤ newIndex then
      { st with historyIndex := -1, input := "" }
    else
      { st with historyIndex := newIndex, input := st.history.getD newIndex.toNat "" }
  else st

lemma getD_append_cons (pre : List String) (x : String) (rest : List String) (d : String) :
    (pre ++ x :: rest).getD pre.length d = x := by
  induction pre with
  | nil => rfl
  | cons a l ih => simpa using ih

lemma getD_len_le (l : List String) (n : Nat) (d : String) (h : l.length ≤ n) :
    l.getD n d = d := by
  induction l generalizing n with
  | nil => simp [List.getD]
  | cons a t ih =>
    cases n with
    | zero => simp at h
    | succ m => simpa using ih m (by simpa using h)

lemma take_append_cons (pre : List String) (x : String) (rest : List String) :
    (pre ++ x :: rest).take pre.length = pre := by
  induction pre with
  | nil => rfl
  | cons a l ih => simp [ih]

lemma findRedirectIdx_append (pre : List String) (op : String) (rest : List String)
    (hop : isRedirect op = true) (hpre : ∀ a ∈ pre, isRedirect a = false) :
    findRedirectIdx (pre ++ op :: rest) = some pre.length := by
  induction pre with
  | nil => simp [findRedirectIdx, hop]
  | cons a l ih =>
    have ha : isRedirect a = false := hpre a (by simp)
    simp [findRedirectIdx, ha, ih (fun b hb => hpre b (by simp [hb]))]

lemma findRedirectIdx_none (args : List String) (h : ∀ a ∈ args, isRedirect a = false) :
    findRedirectIdx args = none := by
  induction args with
  | nil => rfl
  | cons a l ih =>
    have ha := h a (by simp)
    simp [findRedirectIdx, ha, ih (fun b hb => h b (by simp [hb]))]

lemma fsRead_replace (fs : FileSys) (n c v : String) (h : fsRead fs n = some v) :
    fsRead (replaceContent fs n c) n = some c := by
  induction fs with
  | nil => simp [fsRead] at h
  | cons hd tl ih =>
    by_cases hn : hd.1 = n
    · simp only [fsRead, replaceContent, List.map_cons, if_pos hn]
      rw [List.find?_cons_of_pos _ (by simp)]
      rfl
    · have h2 : fsRead tl n = some v := by
        simp only [fsRead] at h ⊢
        rwa [List.find?_cons_of_neg _ (by simpa using hn)] at h
      have hres := ih h2
      simp only [fsRead, replaceContent, List.map_cons, if_neg hn] at hres ⊢
      rwa [List.find?_cons_of_neg _ (by simpa using hn)]

/-- C1 (counterexample): the live scrollback is not bounded by 500; the
source `addOutput` appends without truncating, so after appending 501
lines the live buffer holds 501 lines. -/
theorem live_scrollback_unbounded_C1_counterexample :
    ¬ ((addOutput [] (List.replicate 501 "line")).length ≤ 500) := by
  simp only [addOutput, List.nil_append, List.length_replicate]
  omega

/-- C1 (amended): the 500/100 caps with FIFO front-eviction hold for the
persisted snapshots, not the live buffers: at every write the stored
scrollback is the most recent `min(N,500)` lines (the older `N-500` are
the dropped front prefix) and the stored history the most recent
`min(N,100)` entries, while the live `addOutput` appends unboundedly;
a restore also brings back at most 500 lines. -/
theorem persisted_caps_C1 (l h : List String)
    (hl : 500 ≤ l.length) (hh : 100 ≤ h.length) :
    (saveOutputToStorage l).length = 500 ∧
    l.take (l.length - 500) ++ saveOutputToStorage l = l ∧
    (saveHistoryToStorage h).length = 100 ∧
    h.take (h.length - 100) ++ saveHistoryToStorage h = h ∧
    (∀ l2 : List String, (saveOutputToStorage l2).length ≤ 500) ∧
    (∀ h2 : List String, (saveHistoryToStorage h2).length ≤ 100) ∧
    (∀ prev lines : List String, addOutput prev lines = prev ++ lines) ∧
    (∀ stored : List String, (loadOutputFromStorage (some stored)).length ≤ 500) := by
  refine ⟨?_, ?_, ?_, ?_, ?_, ?_, ?_, ?_⟩
  · simp only [saveOutputToStorage, List.length_drop]; omega
  · exact List.take_append_drop _ _
  · simp only [saveHistoryToStorage, List.length_drop]; omega
  · exact List.take_append_drop _ _
  · intro l2; simp only [saveOutputToStorage, List.length_drop]; omega
  · intro h2; simp only [saveHistoryToStorage, List.length_drop]; omega
  · intro prev lines; rfl
  · intro stored; simp only [loadOutputFromStorage, List.length_drop]; omega

theorem persisted_caps_C1_witness :
    (saveOutputToStorage (List.replicate 501 "x")).length = 500 ∧
    (saveHistoryToStorage (List.replicate 101 "c")).length = 100 := by
  have h1 := persisted_caps_C1 (List.replicate 501 "x") (List.replicate 101 "c")
    (by simp only [List.length_replicate]; omega) (by simp only [List.length_replicate]; omega)
  exact ⟨h1.1, h1.2.2.1⟩

/-- C2 (counterexample): submitting a line that is all whitespace is not
a complete no-op: no scrollback line is appended, but the Enter handler
still appends the raw line to History. -/
theorem blank_submit_C2_counterexample :
    (enterKey ⟨[], " ", [], -1, none, none⟩
        ⟨[], ⟨true, none⟩, ⟨true, none, none⟩, ⟨true, "", "", none⟩, ⟨true, none⟩⟩).1.history
      = [" "] ∧
    (enterKey ⟨[], " ", [], -1, none, none⟩
        ⟨[], ⟨true, none⟩, ⟨true, none, none⟩, ⟨true, "", "", none⟩, ⟨true, none⟩⟩).1.output
      = [] :=
  ⟨rfl, rfl⟩

/-- C2 (amended): submitting input that trims to empty appends no
prompt/echo line and no output line, performs no remote call, but the
raw line is still appended to History; the recall cursor resets and the
input line clears. -/
theorem blank_submit_C2 (st : ShellState) (env : ShellEnv) (hblank : jsTrim st.input = "") :
    enterKey st env =
      ({ st with history := st.history ++ [st.input], historyIndex := -1, input := "" },
       env, []) := by
  simp [enterKey, executeCommand, hblank]

theorem blank_submit_C2_witness :
    enterKey ⟨["w"], "   ", ["old"], 0, none, none⟩
        ⟨[], ⟨true, none⟩, ⟨true, none, none⟩, ⟨true, "", "", none⟩, ⟨true, none⟩⟩ =
      (⟨["w"], "", ["old", "   "], -1, none, none⟩,
       ⟨[], ⟨true, none⟩, ⟨true, none, none⟩, ⟨true, "", "", none⟩, ⟨true, none⟩⟩, []) :=
  blank_submit_C2 _ _ rfl

lemma getD_append_cons2 (pre : List String) (x y : String) (rest : List String) (d : String) :
    (pre ++ x :: y :: rest).getD (pre.length + 1) d = y := by
  have h := getD_append_cons (pre ++ [x]) y rest d
  simpa [List.append_assoc] using h

/-- C3: for `echo` with a redirect, the tokens before the first operator
join (space-separated) into the payload and the token immediately after
is the target.  With `>` an absent target is created with exactly the
payload and a present target is overwritten with the payload; with `>>`
a present target ends up holding the previous content, a newline, then
the payload. -/
theorem echo_redirect_C3 (pre : List String) (target : String) (rest : List String)
    (fs : FileSys) (hpre : ∀ a ∈ pre, isRedirect a = false) (htarget : target ≠ "") :
    (fsRead fs target = none →
      echoCmd (pre ++ ">" :: target :: rest) fs =
        ("", (target, String.intercalate " " pre) :: fs,
         [FacadeCall.readFile target,
          FacadeCall.createFile target (String.intercalate " " pre)])) ∧
    (∀ c, fsRead fs target = some c →
      echoCmd (pre ++ ">" :: target :: rest) fs =
        ("", replaceContent fs target (String.intercalate " " pre),
         [FacadeCall.readFile target,
          FacadeCall.updateFile target (String.intercalate " " pre)]) ∧
      fsRead (echoCmd (pre ++ ">" :: target :: rest) fs).2.1 target =
        some (String.intercalate " " pre)) ∧
    (∀ c, fsRead fs target = some c →
      echoCmd (pre ++ ">>" :: target :: rest) fs =
        ("", replaceContent fs target (c ++ "\n" ++ String.intercalate " " pre),
         [FacadeCall.readFile target,
          FacadeCall.updateFile target (c ++ "\n" ++ String.intercalate " " pre)]) ∧
      fsRead (echoCmd (pre ++ ">>" :: target :: rest) fs).2.1 target =
        some (c ++ "\n" ++ String.intercalate " " pre)) := by
  have hop1 : isRedirect ">" = true := rfl
  have hop2 : isRedirect ">>" = true := rfl
  have hidx1 := findRedirectIdx_append pre ">" (target :: rest) hop1 hpre
  have hidx2 := findRedirectIdx_append pre ">>" (target :: rest) hop2 hpre
  have htake1 := take_append_cons pre ">" (target :: rest)
  have htake2 := take_append_cons pre ">>" (target :: rest)
  have hgetop1 := getD_append_cons pre ">" (target :: rest) ""
  have hgetop2 := getD_append_cons pre ">>" (target :: rest) ""
  have hgettgt1 := getD_append_cons2 pre ">" target rest ""
  have hgettgt2 := getD_append_cons2 pre ">>" target rest ""
  refine ⟨?_, ?_, ?_⟩
  · intro habs
    unfold echoCmd
    rw [hidx1]
    dsimp only
    rw [htake1, hgetop1, hgettgt1, if_neg htarget,
      if_neg (by decide : ¬ ((">" : String) = ">>")), habs]
    dsimp only
    simp [fsCreate, habs]
  · intro c hc
    have heq : echoCmd (pre ++ ">" :: target :: rest) fs =
        ("", replaceContent fs target (String.intercalate " " pre),
         [FacadeCall.readFile target,
          FacadeCall.updateFile target (String.intercalate " " pre)]) := by
      unfold echoCmd
      rw [hidx1]
      dsimp only
      rw [htake1, hgetop1, hgettgt1, if_neg htarget,
        if_neg (by decide : ¬ ((">" : String) = ">>")), hc]
      dsimp only
      simp [fsUpdate, hc]
    refine ⟨heq, ?_⟩
    rw [heq]
    exact fsRead_replace fs target (String.intercalate " " pre) c hc
  · intro c hc
    have heq : echoCmd (pre ++ ">>" :: target :: rest) fs =
        ("", replaceContent fs target (c ++ "\n" ++ String.intercalate " " pre),
         [FacadeCall.readFile target,
          FacadeCall.updateFile target (c ++ "\n" ++ String.intercalate " " pre)]) := by
      unfold echoCmd
      rw [hidx2]
      dsimp only
      rw [htake2, hgetop2, hgettgt2, if_neg htarget, if_pos rfl, hc]
      dsimp only
      simp [fsUpdate, hc]
    refine ⟨heq, ?_⟩
    rw [heq]
    exact fsRead_replace fs target (c ++ "\n" ++ String.intercalate " " pre) c hc

theorem echo_redirect_C3_witness :
    echoCmd ["hello", ">", "a.txt"] [] =
      ("", [("a.txt", "hello")],
       [FacadeCall.readFile "a.txt", FacadeCall.createFile "a.txt" "hello"]) ∧
    fsRead (echoCmd ["world", ">>", "a.txt"] [("a.txt", "hello")]).2.1 "a.txt" =
      some "hello\nworld" := by
  constructor
  · exact (echo_redirect_C3 ["hello"] "a.txt" [] [] (by decide) (by decide)).1 rfl
  · exact ((echo_redirect_C3 ["world"] "a.txt" [] [("a.txt", "hello")]
      (by decide) (by decide)).2.2 "hello" rfl).2

/-- C4: an `echo` redirect operator with no token after it yields the
shell-style syntax-error message and issues zero facade calls, leaving
the file store untouched; concretely, submitting `echo x >` appends the
echo line and the syntax message only. -/
theorem echo_missing_target_C4 :
    (∀ (pre : List String) (op : String) (fs : FileSys),
      isRedirect op = true → (∀ a ∈ pre, isRedirect a = false) →
      echoCmd (pre ++ [op]) fs = (echoSyntaxErr, fs, [])) ∧
    (∀ (st : ShellState) (env : ShellEnv),
      executeCommand "echo x >" st env =
        ({ st with output := (st.output ++ ["root@osfs:~$ echo x >"]) ++ [echoSyntaxErr] },
         env, [])) := by
  constructor
  · intro pre op fs hop hpre
    have hidx := findRedirectIdx_append pre op [] hop hpre
    unfold echoCmd
    rw [hidx]
    dsimp only
    have hget : (pre ++ [op]).getD (pre.length + 1) "" = "" :=
      getD_len_le _ _ _ (by simp)
    rw [hget, if_pos rfl]
  · intro st env
    rfl

theorem echo_missing_target_C4_witness :
    echoCmd ["x", ">"] [] = (echoSyntaxErr, [], []) :=
  echo_missing_target_C4.1 ["x"] ">" [] rfl (by decide)

/-- C10: `echo` without a redirect token issues zero facade calls and
its result is exactly the argument tokens joined by single spaces; via
the tokenizer, runs of whitespace in the submitted line collapse to one
space in the output. -/
theorem echo_plain_C10 :
    (∀ (args : List String) (fs : FileSys),
      (∀ a ∈ args, isRedirect a = false) →
      echoCmd args fs = (String.intercalate " " args, fs, [])) ∧
    (∀ (st : ShellState) (env : ShellEnv),
      executeCommand "echo   a    b" st env =
        ({ st with output := (st.output ++ ["root@osfs:~$ echo   a    b"]) ++ ["a b"] },
         env, [])) := by
  constructor
  · intro args fs h
    unfold echoCmd
    rw [findRedirectIdx_none args h]
  · intro st env
    rfl

theorem echo_plain_C10_witness :
    echoCmd ["hi", "there"] [] = ("hi there", [], []) :=
  echo_plain_C10.1 ["hi", "there"] [] (by decide)

/-- C5: executing `clear` replaces the entire scrollback with the fixed
welcome banner, erases only the persisted scrollback key, leaves the
live History and its persisted key untouched, and makes no facade call. -/
theorem clear_verb_C5 (st : ShellState) (env : ShellEnv) :
    executeCommand "clear" st env =
      ({ st with output := WELCOME_MESSAGE, storedOutput := none }, env, []) :=
  rfl

/-- C6 (counterexample): a `kill` whose remote call completes with
`success: false` and message `X` appends `bash: kill: (3) - X`, which is
not the service message verbatim. -/
theorem service_failure_C6_counterexample :
    killCmd ["3"] ⟨false, some "X"⟩ =
      ("bash: kill: (3) - X", [FacadeCall.terminateProcess (some 3)]) ∧
    ("bash: kill: (3) - X" : String) ≠ "X" := by
  exact ⟨rfl, by decide⟩

/-- C6 (amended): for the cited handlers, a completed call reporting
`success: false` appends one line that embeds the service-reported
message in a fixed command-specific wrapper (`bash: kill: (<pid>) - `
for `kill`, `shmread: ` for `shmread`); exactly one facade call is made
and nothing is retried. -/
theorem service_failure_wrapped_C6 :
    (∀ (a : String) (rest : List String) (resp : SvcResp),
      a ≠ "" → resp.success = false →
      killCmd (a :: rest) resp =
        ("bash: kill: (" ++ pidStr (jsParseInt a) ++ ") - " ++ jsOr resp.error "进程不存在",
         [FacadeCall.terminateProcess (jsParseInt a)])) ∧
    (∀ (a : String) (rest : List String) (resp : ShmReadResp),
      a ≠ "" → resp.success = false →
      shmreadCmd (a :: rest) resp =
        ("shmread: " ++ jsOr resp.error "读取失败",
         [FacadeCall.shmRead (jsParseInt a) (jsParseInt (jsOr (rest.get? 0) "0"))
            (jsParseInt (jsOr (rest.get? 1) "64"))])) := by
  constructor
  · intro a rest resp ha hf
    simp [killCmd, ha, hf]
  · intro a rest resp ha hf
    simp [shmreadCmd, ha, hf]

theorem service_failure_wrapped_C6_witness :
    killCmd ["7"] ⟨false, some "gone"⟩ =
      ("bash: kill: (7) - gone", [FacadeCall.terminateProcess (some 7)]) ∧
    shmreadCmd ["5"] ⟨false, none, some "bad"⟩ =
      ("shmread: bad", [FacadeCall.shmRead (some 5) (some 0) (some 64)]) :=
  ⟨service_failure_wrapped_C6.1 "7" [] ⟨false, some "gone"⟩ (by decide) rfl,
   service_failure_wrapped_C6.2 "5" [] ⟨false, none, some "bad"⟩ (by decide) rfl⟩

set_option maxRecDepth 4000 in
/-- C7: the hexdump formatter processes 32 hex characters (16 bytes) per
line, prefixing each line with the running byte offset as 8 hex digits
and ending with the ASCII column between bars; a 64-byte block of `0x41`
bytes yields exactly 4 lines with offsets 00000000/00000010/00000020/
00000030, 16 repeated `41` pairs and `|AAAAAAAAAAAAAAAA|`; a byte
outside 0x20-0x7E renders as `.` in the ASCII column. -/
theorem hexdump_format_C7 :
    hexdumpLines (String.join (List.replicate 64 "41")) (String.join (List.replicate 64 "A")) =
      ["00000000  41 41 41 41 41 41 41 41 41 41 41 41 41 41 41 41   |AAAAAAAAAAAAAAAA|",
       "00000010  41 41 41 41 41 41 41 41 41 41 41 41 41 41 41 41   |AAAAAAAAAAAAAAAA|",
       "00000020  41 41 41 41 41 41 41 41 41 41 41 41 41 41 41 41   |AAAAAAAAAAAAAAAA|",
       "00000030  41 41 41 41 41 41 41 41 41 41 41 41 41 41 41 41   |AAAAAAAAAAAAAAAA|"] ∧
    hexdumpLines (String.join (List.replicate 15 "41") ++ "0a")
        (String.join (List.replicate 15 "A") ++ "\n") =
      ["00000000  41 41 41 41 41 41 41 41 41 41 41 41 41 41 41 0a   |AAAAAAAAAAAAAAA.|"] :=
  ⟨rfl, rfl⟩

/-- C8: the recall handlers implement the specified cursor state machine
over History: Up from `-1` jumps to the last entry (no-op on empty
history), Up decrements and loads while above 0 and re-loads entry 0 at
the bottom (a no-op when the input already holds it), Down increments
and loads below the end, resets to `-1` and clears the input at the end,
and is a no-op at `-1`. -/
theorem recall_cursor_C8 (st : ShellState) :
    (st.historyIndex = -1 → st.history ≠ [] →
      arrowUp st = { st with historyIndex := (st.history.length : Int) - 1,
                             input := st.history.getD (st.history.length - 1) "" }) ∧
    (st.history = [] → arrowUp st = st) ∧
    (0 < st.historyIndex → st.historyIndex < (st.history.length : Int) →
      arrowUp st = { st with historyIndex := st.historyIndex - 1,
                             input := st.history.getD (st.historyIndex - 1).toNat "" }) ∧
    (st.historyIndex = 0 → st.input = st.history.getD 0 "" → arrowUp st = st) ∧
    (0 ≤ st.historyIndex → st.historyIndex < (st.history.length : Int) - 1 →
      arrowDown st = { st with historyIndex := st.historyIndex + 1,
                               input := st.history.getD (st.historyIndex + 1).toNat "" }) ∧
    (0 ≤ st.historyIndex → st.historyIndex = (st.history.length : Int) - 1 →
      arrowDown st = { st with historyIndex := -1, input := "" }) ∧
    (st.historyIndex = -1 → arrowDown st = st) := by
  obtain ⟨o, inp, hist, idx, so, sh⟩ := st
  refine ⟨?_, ?_, ?_, ?_, ?_, ?_, ?_⟩
  · intro h1 h2
    dsimp only at h1
    subst h1
    have hlen : 0 < hist.length := List.length_pos.mpr h2
    have ht : ((hist.length : Int) - 1).toNat = hist.length - 1 := by omega
    simp [arrowUp, hlen, ht]
  · intro h
    dsimp only at h
    subst h
    simp [arrowUp]
  · intro h1 h2
    dsimp only at h1 h2
    have hlen : 0 < hist.length := by omega
    have hne : ¬ idx = -1 := by omega
    have hmax : max 0 (idx - 1) = idx - 1 := max_eq_right (by omega)
    simp [arrowUp, hlen, hne, hmax]
  · intro h0 hinp
    dsimp only at h0 hinp
    subst h0
    subst hinp
    by_cases hlen : 0 < hist.length
    · have hmax : max (0 : Int) (0 - 1) = 0 := by decide
      simp [arrowUp, hlen, hmax]
    · simp [arrowUp, hlen]
  · intro h1 h2
    dsimp only at h1 h2
    have hlt : ¬ (hist.length : Int) ≤ idx + 1 := by omega
    simp [arrowDown, h1, hlt]
  · intro h1 h2
    dsimp only at h1 h2
    have hle : (hist.length : Int) ≤ idx + 1 := by omega
    simp [arrowDown, h1, hle]
  · intro h1
    dsimp only at h1
    subst h1
    simp [arrowDown]

theorem recall_cursor_C8_witness :
    arrowUp ⟨[], "", ["a", "b"], -1, none, none⟩ = ⟨[], "b", ["a", "b"], 1, none, none⟩ ∧
    arrowDown ⟨[], "b", ["a", "b"], 1, none, none⟩ = ⟨[], "", ["a", "b"], -1, none, none⟩ :=
  ⟨(recall_cursor_C8 _).1 rfl (by decide),
   (recall_cursor_C8 _).2.2.2.2.2.1 (by decide) (by decide)⟩

/-- C9: `mkfs` (alias `format`) without a leading `--force`/`-f` makes
zero facade calls and outputs only the fixed two-line warning; the
destructive format operation is invoked precisely when the first
argument is `--force` or `-f`. -/
theorem mkfs_guard_C9 :
    (∀ (args : List String) (resp : SvcResp),
      args.getD 0 "" ≠ "--force" → args.getD 0 "" ≠ "-f" →
      mkfsCmd args resp = (mkfsMsg, [])) ∧
    (∀ (args : List String) (resp : SvcResp),
      (args.getD 0 "" = "--force" ∨ args.getD 0 "" = "-f") →
      (mkfsCmd args resp).2 = [FacadeCall.formatDisk]) ∧
    (splitNewlines mkfsMsg).length = 2 ∧
    (∀ (st : ShellState) (env : ShellEnv),
      executeCommand "mkfs" st env =
        ({ st with output := (st.output ++ ["root@osfs:~$ mkfs"]) ++ splitNewlines mkfsMsg },
         env, []) ∧
      executeCommand "format" st env =
        ({ st with output := (st.output ++ ["root@osfs:~$ format"]) ++ splitNewlines mkfsMsg },
         env, [])) := by
  refine ⟨?_, ?_, rfl, ?_⟩
  · intro args resp h1 h2
    unfold mkfsCmd
    rw [if_neg (by tauto)]
  · intro args resp h
    unfold mkfsCmd
    rw [if_pos h]
  · intro st env
    exact ⟨rfl, rfl⟩

theorem mkfs_guard_C9_witness :
    mkfsCmd [] ⟨true, none⟩ = (mkfsMsg, []) ∧
    (mkfsCmd ["--force"] ⟨true, none⟩).2 = [FacadeCall.formatDisk] :=
  ⟨mkfs_guard_C9.1 [] ⟨true, none⟩ (by decide) (by decide),
   mkfs_guard_C9.2.1 ["--force"] ⟨true, none⟩ (Or.inl rfl)⟩
